import Mathlib

/-!
Shallow embedding of `src/post_instagram.py` (class `InstagramAPI`).

The HTTP transport (`requests.post` + `raise_for_status` + `.json()`) is
modelled as an environment: a function from the index of the call within one
`post_image` invocation and the request parameters to either a parsed 2xx JSON
body or a raised `requests.exceptions.RequestException`.  Response bodies are
modelled as JSON objects (association lists from string keys to JSON values),
matching the wire interface the program consumes.  Python exceptions that the
code can let escape (`IndexError`, `TypeError`, `AttributeError`) are modelled
explicitly as an error outcome.
-/

/-- A JSON value as far as the program inspects it: a string, an object, or
anything else (numbers, arrays, booleans, null), whose inner structure the
program never uses. -/
inductive JValue where
  | str (s : String)
  | obj (fields : List (String × JValue))
  | other
deriving Repr

/-- Python str() of a JSON value as it is interpolated into the error
f-string; the textual repr of non-string values is abstracted because the
program only compares and returns the resulting message opaquely. -/
def pyStr : JValue → String
  | .str s => s
  | .obj _ => "(dict)"
  | .other => "(value)"

/-- What `e.response` offers in the exception handler: absent (network error),
a body whose `.json()` raises `ValueError`, or a parsed JSON object. -/
inductive RespBody where
  | invalid
  | jsonObj (fields : List (String × JValue))
deriving Repr

/-- A raised `requests.exceptions.RequestException`: its `str(e)` text and its
attached response, if any. -/
structure RequestError where
  text : String
  response : Option RespBody
deriving Repr

/-- One transport call either returns a parsed 2xx JSON object body or raises
a `RequestException`. -/
inductive TransportResult where
  | ok (body : List (String × JValue))
  | exn (e : RequestError)
deriving Repr

/-- The observable parameters of each POST request the client builds.
`singleMedia` carries `image_url` and `caption`; `carouselItem` carries
`image_url` and the `is_carousel_item` flag (implicit in the constructor);
`carouselContainer` carries the comma-joined `children` string and `caption`;
`publish` carries `creation_id` (the raw JSON value taken from the container
response). -/
inductive Request where
  | singleMedia (image_url : String) (caption : String)
  | carouselItem (image_url : String)
  | carouselContainer (children : String) (caption : String)
  | publish (creation_id : JValue)
deriving Repr

/-- The transport environment: result of the n-th HTTP call of one
`post_image` invocation, given the request sent. -/
def Env : Type := Nat → Request → TransportResult

/-- Python exceptions that can escape `post_image` uncaught. -/
inductive PyError where
  | indexError
  | typeError
  | attributeError
deriving Repr, DecidableEq

/-- The returned dict: `{"success": True, "post_id": ..., "status": ...}` or
`{"success": False, "error": ...}`. -/
inductive PostResult where
  | success (post_id : JValue) (status : String)
  | failure (error : String)
deriving Repr

/-- The `image_paths` argument: a bare URL string or a list of URL strings. -/
inductive ImagePaths where
  | str (s : String)
  | list (l : List String)
deriving Repr

/-- Python truthiness of `not x` for an optional string (`os.getenv` result):
true exactly for `None` and the empty string. -/
def pyNotStr : Option String → Bool
  | none => true
  | some s => s == ""

/-- The credential state an `InstagramAPI` instance holds after `__init__`. -/
structure InstagramAPI where
  access_token : String
  account_id : String
  api_version : String
  base_url : String
deriving Repr

/-- `InstagramAPI.__init__`: reads the two environment variables, raises
`ValueError` when either is missing or empty, otherwise stores them together
with the API version and base URL. -/
def InstagramAPI.init (token account : Option String) : Except String InstagramAPI :=
  if pyNotStr token || pyNotStr account then
    .error "Instagram 자격 증명이 설정되지 않았습니다. .env 파일을 확인해주세요."
  else
    .ok { access_token := token.getD ""
          account_id := account.getD ""
          api_version := "v18.0"
          base_url := "https://graph.facebook.com/" ++ "v18.0" }

/-- The weekday names used by `_get_formatted_date` (Monday first, as in
Python's `datetime.weekday()`). -/
def weekdays : List String :=
  ["월요일", "화요일", "수요일", "목요일", "금요일", "토요일", "일요일"]

/-- Python's `%02d` formatting of a natural number. -/
def pad2 (n : Nat) : String :=
  if n < 10 then "0" ++ toString n else toString n

/-- The `datetime.now()` fields `_get_formatted_date` reads; `weekday` is
0 = Monday .. 6 = Sunday as in Python. -/
structure PyDate where
  year : Nat
  month : Nat
  day : Nat
  weekday : Fin 7

/-- `InstagramAPI._get_formatted_date`: the generated default caption. -/
def getFormattedDate (now : PyDate) : String :=
  toString now.year ++ "년 " ++ pad2 now.month ++ "월 " ++ pad2 now.day ++ "일 "
    ++ weekdays.getD now.weekday.val "" ++ " MQ 글로벌 증권가 뉴스"

/-- The constant status message of a successful post. -/
def statusMessage : String :=
  "이미지가 성공적으로 Instagram에 업로드되었습니다. 원본 파일은 이제 삭제해도 됩니다."

/-- The failure message for carousel item number `i` (1-based). -/
def itemFailMsg (i : Nat) : String :=
  "캐러셀 아이템 " ++ toString i ++ " 생성 실패"

/-- The failure message when the container response has no id. -/
def containerFailMsg : String := "미디어 컨테이너 ID를 받지 못했습니다"

/-- The failure message when the publish response has no id. -/
def publishFailMsg : String := "게시물 ID를 받지 못했습니다"

/-- The prefix of every error string built by the exception handler. -/
def errorMessageBase : String := "Instagram 포스팅 중 오류 발생: "

/-- The `except requests.exceptions.RequestException` handler of
`post_image`: starts from `str(e)`; when `e.response` exists and parses as
JSON containing an `error` key, replaces the message by
`error_data['error'].get('message', str(e))` — which raises `AttributeError`
(uncaught, since only `ValueError` is handled around it) when the `error`
value is not a dict. -/
def handleRequestException (e : RequestError) : Except PyError PostResult :=
  match e.response with
  | none => .ok (.failure (errorMessageBase ++ e.text))
  | some .invalid => .ok (.failure (errorMessageBase ++ e.text))
  | some (.jsonObj fields) =>
    match List.lookup "error" fields with
    | none => .ok (.failure (errorMessageBase ++ e.text))
    | some (.obj errFields) =>
      match List.lookup "message" errFields with
      | some v => .ok (.failure (errorMessageBase ++ pyStr v))
      | none => .ok (.failure (errorMessageBase ++ e.text))
    | some _ => .error .attributeError

/-- Outcome of the carousel-item loop: all ids collected, an early failure
return, or a `RequestException` propagating to the handler. -/
inductive ItemsResult where
  | ok (ids : List JValue)
  | fail (msg : String)
  | exn (e : RequestError)
deriving Repr

/-- The `for i, image_url in enumerate(image_paths, 1)` loop of `post_image`:
creates one carousel item per URL in order, collecting `response["id"]`
values, stopping at the first response without an `id` or at a raised
exception.  Returns the loop outcome, the requests issued, and the index of
the next transport call. -/
def createCarouselItems (env : Env) (urls : List String) (i idx : Nat) :
    ItemsResult × List Request × Nat :=
  match urls with
  | [] => (.ok [], [], idx)
  | url :: rest =>
    match env idx (.carouselItem url) with
    | .exn e => (.exn e, [.carouselItem url], idx + 1)
    | .ok body =>
      match List.lookup "id" body with
      | none => (.fail (itemFailMsg i), [.carouselItem url], idx + 1)
      | some idv =>
        match createCarouselItems env rest (i + 1) (idx + 1) with
        | (.ok ids, tr, idx2) => (.ok (idv :: ids), .carouselItem url :: tr, idx2)
        | (.fail m, tr, idx2) => (.fail m, .carouselItem url :: tr, idx2)
        | (.exn e, tr, idx2) => (.exn e, .carouselItem url :: tr, idx2)

/-- Extracts the strings of a list of JSON values; `none` when any value is
not a string (Python's `",".join` raises `TypeError` there). -/
def strList : List JValue → Option (List String)
  | [] => some []
  | .str s :: rest => (strList rest).map (s :: ·)
  | _ :: _ => none

/-- `",".join(children_ids)` on the collected id values; undefined
(`TypeError`) when some id is not a string. -/
def joinIds (l : List JValue) : Option String :=
  (strList l).map (String.intercalate ",")

/-- The tail of `post_image` shared by both branches: the `"id" not in
container` check, the publish call, and the `"id" not in publish_data` check.
`tr` is the trace of requests already issued and `idx` the next call index. -/
def afterContainer (env : Env) (idx : Nat) (container : List (String × JValue))
    (tr : List Request) : (Except PyError PostResult) × List Request :=
  match List.lookup "id" container with
  | none => (.ok (.failure containerFailMsg), tr)
  | some cid =>
    match env idx (.publish cid) with
    | .exn e => (handleRequestException e, tr ++ [.publish cid])
    | .ok pub =>
      match List.lookup "id" pub with
      | none => (.ok (.failure publishFailMsg), tr ++ [.publish cid])
      | some pid => (.ok (.success pid statusMessage), tr ++ [.publish cid])

/-- The caption resolution at the top of `post_image`: `if caption is None:
caption = self._get_formatted_date()`. -/
def resolveCaption (caption : Option String) (now : PyDate) : String :=
  match caption with
  | none => getFormattedDate now
  | some c => c

/-- `InstagramAPI.post_image`: resolves the caption (generated date caption
exactly when `caption is None`), wraps a bare string into a one-element list,
then either runs the carousel flow (for more than one URL) or the single-media
flow (indexing `image_paths[0]`, an `IndexError` on the empty list), and ends
with the shared container-id check and publish.  Returns the outcome (a
result dict, or an uncaught Python exception) together with the trace of
transport requests issued. -/
def post_image (env : Env) (image_paths : ImagePaths) (caption : Option String)
    (now : PyDate) : (Except PyError PostResult) × List Request :=
  let cap := resolveCaption caption now
  let paths := match image_paths with
    | .str s => [s]
    | .list l => l
  if paths.length > 1 then
    match createCarouselItems env paths 1 0 with
    | (.fail msg, tr, _) => (.ok (.failure msg), tr)
    | (.exn e, tr, _) => (handleRequestException e, tr)
    | (.ok ids, tr, idx) =>
      match joinIds ids with
      | none => (.error .typeError, tr)
      | some children =>
        match env idx (.carouselContainer children cap) with
        | .exn e => (handleRequestException e, tr ++ [.carouselContainer children cap])
        | .ok container =>
          afterContainer env (idx + 1) container (tr ++ [.carouselContainer children cap])
  else
    match paths with
    | [] => (.error .indexError, [])
    | url :: _ =>
      match env 0 (.singleMedia url cap) with
      | .exn e => (handleRequestException e, [.singleMedia url cap])
      | .ok container => afterContainer env 1 container [.singleMedia url cap]

/-- Environment hypothesis used by the carousel theorems: starting at call
index `idx`, the transport answers the carousel-item request for each URL of
`urls`, in order, with a 2xx body whose `id` field is the corresponding
string of `ids`. -/
def EnvCreatesItems (env : Env) : Nat → List String → List String → Prop
  | _, [], [] => True
  | idx, url :: urls, v :: ids =>
    (∃ body, env idx (Request.carouselItem url) = .ok body ∧
      List.lookup "id" body = some (.str v)) ∧
    EnvCreatesItems env (idx + 1) urls ids
  | _, _, _ => False

theorem createCarouselItems_ok (env : Env) (urls : List String) :
    ∀ (ids : List String) (i idx : Nat), EnvCreatesItems env idx urls ids →
    createCarouselItems env urls i idx =
      (.ok (ids.map JValue.str), urls.map Request.carouselItem, idx + urls.length) := by
  induction urls with
  | nil =>
    intro ids i idx h
    cases ids with
    | nil => simp [createCarouselItems]
    | cons v ids => exact absurd h (by simp [EnvCreatesItems])
  | cons url rest ih =>
    intro ids i idx h
    cases ids with
    | nil => exact absurd h (by simp [EnvCreatesItems])
    | cons v ids =>
      obtain ⟨⟨body, henv, hid⟩, hrest⟩ := h
      have hrec := ih ids (i + 1) (idx + 1) hrest
      simp [createCarouselItems, henv, hid, hrec]
      omega

theorem createCarouselItems_fail (env : Env) (pre : List String) :
    ∀ (ids suf : List String) (u : String) (i idx : Nat)
      (body : List (String × JValue)),
    EnvCreatesItems env idx pre ids →
    env (idx + pre.length) (.carouselItem u) = .ok body →
    List.lookup "id" body = none →
    createCarouselItems env (pre ++ u :: suf) i idx =
      (.fail (itemFailMsg (i + pre.length)),
       (pre ++ [u]).map Request.carouselItem, idx + pre.length + 1) := by
  induction pre with
  | nil =>
    intro ids suf u i idx body hpre henv hid
    cases ids with
    | nil => simp at henv; simp [createCarouselItems, henv, hid]
    | cons v ids => exact absurd hpre (by simp [EnvCreatesItems])
  | cons p pre ih =>
    intro ids suf u i idx body hpre henv hid
    cases ids with
    | nil => exact absurd hpre (by simp [EnvCreatesItems])
    | cons v ids =>
      obtain ⟨⟨b0, henv0, hid0⟩, hrest⟩ := hpre
      have harith : idx + (p :: pre).length = idx + 1 + pre.length := by
        simp; omega
      rw [harith] at henv
      have hrec := ih ids suf u (i + 1) (idx + 1) body hrest henv hid
      simp [createCarouselItems, henv0, hid0, hrec]
      constructor
      · have : i + (pre.length + 1) = i + 1 + pre.length := by omega
        rw [this]
      · omega

theorem strList_map_str (ids : List String) :
    strList (ids.map JValue.str) = some ids := by
  induction ids with
  | nil => rfl
  | cons a as ih => simp [strList, ih]

theorem joinIds_map_str (ids : List String) :
    joinIds (ids.map JValue.str) = some (String.intercalate "," ids) := by
  simp [joinIds, strList_map_str]

theorem afterContainer_calls (env : Env) (idx : Nat)
    (container : List (String × JValue)) (tr : List Request) :
    ∃ rest, (afterContainer env idx container tr).2 = tr ++ rest ∧
      ∀ r ∈ rest, ∃ cid, r = Request.publish cid := by
  unfold afterContainer
  cases h : List.lookup "id" container with
  | none => exact ⟨[], by simp⟩
  | some cid =>
    refine ⟨[.publish cid], ?_, ?_⟩
    · cases henv : env idx (.publish cid) with
      | exn e => simp [henv]
      | ok pub =>
        cases hpub : List.lookup "id" pub with
        | none => simp [henv, hpub]
        | some pid => simp [henv, hpub]
    · intro r hr
      simp at hr
      exact ⟨cid, hr⟩

theorem post_image_single_eq (env : Env) (url : String) (cap : Option String)
    (now : PyDate) :
    post_image env (.str url) cap now =
      match env 0 (.singleMedia url (resolveCaption cap now)) with
      | .exn e => (handleRequestException e, [.singleMedia url (resolveCaption cap now)])
      | .ok container =>
        afterContainer env 1 container [.singleMedia url (resolveCaption cap now)] := rfl

theorem post_image_list1_eq (env : Env) (url : String) (cap : Option String)
    (now : PyDate) :
    post_image env (.list [url]) cap now =
      match env 0 (.singleMedia url (resolveCaption cap now)) with
      | .exn e => (handleRequestException e, [.singleMedia url (resolveCaption cap now)])
      | .ok container =>
        afterContainer env 1 container [.singleMedia url (resolveCaption cap now)] := rfl

/-- A fixed concrete date used by concrete runs: 2026-10-12, a Monday. -/
def sampleDate : PyDate := ⟨2026, 10, 12, 0⟩

/-- Claim C10: for the empty list of URLs, `post_image` raises an uncaught
`IndexError` (from `image_paths[0]`) instead of returning a failure record,
since the handler only catches the HTTP library's request exceptions; no
transport call is made. -/
theorem claim_c10 (env : Env) (caption : Option String) (now : PyDate) :
    post_image env (.list []) caption now = (.error .indexError, []) := rfl

/-- Claim C9: construction fails with the configuration error exactly when
the access token or the account identifier is missing or empty, and stores
both credentials when they are non-empty. -/
theorem claim_c9 (token account : Option String) :
    ((∃ msg, InstagramAPI.init token account = .error msg) ↔
      token = none ∨ token = some "" ∨ account = none ∨ account = some "") ∧
    (∀ s t, token = some s → account = some t → s ≠ "" → t ≠ "" →
      InstagramAPI.init token account =
        .ok ⟨s, t, "v18.0", "https://graph.facebook.com/" ++ "v18.0"⟩) := by
  constructor
  · cases token with
    | none => simp [InstagramAPI.init, pyNotStr]
    | some s =>
      cases account with
      | none => simp [InstagramAPI.init, pyNotStr]
      | some t =>
        by_cases hs : s = "" <;> by_cases ht : t = "" <;>
          simp [InstagramAPI.init, pyNotStr, hs, ht]
  · intro s t hs ht hs' ht'
    subst hs; subst ht
    simp [InstagramAPI.init, pyNotStr, hs', ht']

theorem claim_c9_witness :
    InstagramAPI.init (some "token123") (some "17840000000000000") =
      .ok ⟨"token123", "17840000000000000", "v18.0",
        "https://graph.facebook.com/" ++ "v18.0"⟩ :=
  (claim_c9 (some "token123") (some "17840000000000000")).2
    "token123" "17840000000000000" rfl rfl (by decide) (by decide)

/-- A transport that always raises an HTTP 400 whose JSON body maps `error`
to a bare string rather than an object. -/
def badErrorBodyEnv : Env := fun _ _ =>
  .exn ⟨"400 Client Error: Bad Request for url",
    some (.jsonObj [("error", JValue.str "Invalid platform app")])⟩

/-- Claim C1 (failing run): on a spec-accepted input (one URL string) whose
single transport call raises with JSON body mapping `error` to a string, the
exception handler itself raises `AttributeError` (from
`error_data['error'].get(...)`), so `post_image` raises to its caller instead
of returning a failure record. -/
theorem claim_c1_bug :
    post_image badErrorBodyEnv (.str "https://example.com/a.jpg")
        (some "caption") sampleDate =
      (.error .attributeError, [.singleMedia "https://example.com/a.jpg" "caption"]) := rfl

/-- A transport that always raises an HTTP 400 whose JSON body is
`{"error": {"message": "Invalid URL"}}`. -/
def invalidUrlEnv : Env := fun _ _ =>
  .exn ⟨"400 Client Error: Bad Request for url",
    some (.jsonObj [("error", JValue.obj [("message", JValue.str "Invalid URL")])])⟩

/-- Claim C2 (counterexample): with the transport raising HTTP 400 and body
`{"error": {"message": "Invalid URL"}}`, the failure record's error string is
the fixed Korean prefix followed by "Invalid URL" — not equal to
"Invalid URL" as the claim states. -/
theorem claim_c2_counterexample :
    (post_image invalidUrlEnv (.str "https://example.com/a.jpg")
        (some "caption") sampleDate).1 =
      .ok (.failure ("Instagram 포스팅 중 오류 발생: " ++ "Invalid URL")) ∧
    "Instagram 포스팅 중 오류 발생: " ++ "Invalid URL" ≠ "Invalid URL" :=
  ⟨rfl, by decide⟩

/-- Claim C2 (amended): when the transport call raises an HTTP 400 whose body
is `{"error": {"message": "Invalid URL"}}`, `post_image` returns a failure
record whose error string is the fixed prefix "Instagram 포스팅 중 오류 발생: "
followed by the extracted message "Invalid URL". -/
theorem claim_c2_amended (env : Env) (url text caption : String) (now : PyDate)
    (h : env 0 (.singleMedia url caption) =
      .exn ⟨text, some (.jsonObj
        [("error", JValue.obj [("message", JValue.str "Invalid URL")])])⟩) :
    (post_image env (.str url) (some caption) now).1 =
      .ok (.failure (errorMessageBase ++ "Invalid URL")) := by
  rw [post_image_single_eq]
  simp only [resolveCaption]
  rw [h]
  rfl

theorem claim_c2_amended_witness :
    (post_image invalidUrlEnv (.str "https://example.com/a.jpg")
        (some "caption") sampleDate).1 =
      .ok (.failure (errorMessageBase ++ "Invalid URL")) :=
  claim_c2_amended invalidUrlEnv "https://example.com/a.jpg"
    "400 Client Error: Bad Request for url" "caption" sampleDate rfl

theorem post_image_carousel_ok_eq (env : Env) (urls ids : List String)
    (cap : Option String) (now : PyDate) (hN : 1 < urls.length)
    (H : EnvCreatesItems env 0 urls ids) :
    post_image env (.list urls) cap now =
      (match env urls.length
          (.carouselContainer (String.intercalate "," ids) (resolveCaption cap now)) with
       | .exn e =>
         (handleRequestException e,
          urls.map Request.carouselItem ++
            [.carouselContainer (String.intercalate "," ids) (resolveCaption cap now)])
       | .ok container =>
         afterContainer env (urls.length + 1) container
           (urls.map Request.carouselItem ++
            [.carouselContainer (String.intercalate "," ids) (resolveCaption cap now)])) := by
  have hitems := createCarouselItems_ok env urls ids 1 0 H
  simp [post_image, hitems, joinIds_map_str, hN]

theorem post_image_single_head (env : Env) (url : String) (cap : Option String)
    (now : PyDate) :
    (post_image env (.str url) cap now).2.head? =
      some (.singleMedia url (resolveCaption cap now)) := by
  rw [post_image_single_eq]
  cases h : env 0 (.singleMedia url (resolveCaption cap now)) with
  | exn e => rfl
  | ok container =>
    obtain ⟨rest, hr, -⟩ :=
      afterContainer_calls env 1 container [.singleMedia url (resolveCaption cap now)]
    simp [hr]

theorem post_image_list1_head (env : Env) (url : String) (cap : Option String)
    (now : PyDate) :
    (post_image env (.list [url]) cap now).2.head? =
      some (.singleMedia url (resolveCaption cap now)) := by
  rw [post_image_list1_eq]
  cases h : env 0 (.singleMedia url (resolveCaption cap now)) with
  | exn e => rfl
  | ok container =>
    obtain ⟨rest, hr, -⟩ :=
      afterContainer_calls env 1 container [.singleMedia url (resolveCaption cap now)]
    simp [hr]

/-- Claim C5: a caption passed as the empty string (or any string) reaches
the container-creation request verbatim, and the generated date caption is
used exactly when the caption argument is absent. -/
theorem claim_c5 (env : Env) (url : String) (now : PyDate) :
    ((post_image env (.str url) (some "") now).2.head? =
      some (.singleMedia url "")) ∧
    ((post_image env (.list [url]) (some "") now).2.head? =
      some (.singleMedia url "")) ∧
    (∀ c, (post_image env (.str url) (some c) now).2.head? =
      some (.singleMedia url c)) ∧
    ((post_image env (.str url) none now).2.head? =
      some (.singleMedia url (getFormattedDate now))) :=
  ⟨post_image_single_head env url (some "") now,
   post_image_list1_head env url (some "") now,
   fun c => post_image_single_head env url (some c) now,
   post_image_single_head env url none now⟩

/-- Claim C6: for a single-URL input (bare string or one-element list) whose
container and publish responses both carry an id, `post_image` issues exactly
one single-media request with the URL and resolved caption, then exactly one
publish request with the container id, and returns the success record with
the publish response's post id. -/
theorem claim_c6 (env : Env) (url : String) (cap : Option String) (now : PyDate)
    (container pub : List (String × JValue)) (cid pid : JValue)
    (h1 : env 0 (.singleMedia url (resolveCaption cap now)) = .ok container)
    (h2 : List.lookup "id" container = some cid)
    (h3 : env 1 (.publish cid) = .ok pub)
    (h4 : List.lookup "id" pub = some pid) :
    post_image env (.str url) cap now =
      (.ok (.success pid statusMessage),
       [.singleMedia url (resolveCaption cap now), .publish cid]) ∧
    post_image env (.list [url]) cap now =
      (.ok (.success pid statusMessage),
       [.singleMedia url (resolveCaption cap now), .publish cid]) := by
  constructor
  · rw [post_image_single_eq, h1]
    simp [afterContainer, h2, h3, h4]
  · rw [post_image_list1_eq, h1]
    simp [afterContainer, h2, h3, h4]

/-- A transport for the happy single-image path: the container response then
the publish response, both carrying ids. -/
def singleOkEnv : Env := fun n _ =>
  if n = 0 then .ok [("id", JValue.str "cont1")]
  else .ok [("id", JValue.str "post1")]

theorem claim_c6_witness :
    post_image singleOkEnv (.str "https://example.com/a.jpg")
        (some "hello") sampleDate =
      (.ok (.success (JValue.str "post1") statusMessage),
       [.singleMedia "https://example.com/a.jpg" "hello",
        .publish (JValue.str "cont1")]) :=
  (claim_c6 singleOkEnv "https://example.com/a.jpg" (some "hello") sampleDate
    [("id", JValue.str "cont1")] [("id", JValue.str "post1")]
    (JValue.str "cont1") (JValue.str "post1") rfl rfl rfl rfl).1

/-- Claim C3: for N>1 URLs whose carousel-item responses all carry string
ids, `post_image` issues exactly one carousel-item request per URL, in input
order, then exactly one carousel-container request whose children parameter
is the comma-joined ids in the same order and whose caption is the supplied
or default caption; anything after it is a publish request only. -/
theorem claim_c3 (env : Env) (urls ids : List String) (cap : Option String)
    (now : PyDate) (hN : 1 < urls.length) (H : EnvCreatesItems env 0 urls ids) :
    ∃ rest,
      (post_image env (.list urls) cap now).2 =
        urls.map Request.carouselItem ++
          (Request.carouselContainer (String.intercalate "," ids)
            (resolveCaption cap now)) :: rest ∧
      ∀ r ∈ rest, ∃ cid, r = Request.publish cid := by
  rw [post_image_carousel_ok_eq env urls ids cap now hN H]
  cases h : env urls.length
      (.carouselContainer (String.intercalate "," ids) (resolveCaption cap now)) with
  | exn e => exact ⟨[], by simp, by simp⟩
  | ok container =>
    obtain ⟨rest, hr, hall⟩ :=
      afterContainer_calls env (urls.length + 1) container
        (urls.map Request.carouselItem ++
          [.carouselContainer (String.intercalate "," ids) (resolveCaption cap now)])
    exact ⟨rest, by simp [hr], hall⟩

/-- A transport for the happy two-image carousel path. -/
def carouselOkEnv : Env := fun n r =>
  match r with
  | .carouselItem _ => .ok [("id", JValue.str ("item" ++ toString (n + 1)))]
  | .carouselContainer _ _ => .ok [("id", JValue.str "cont1")]
  | _ => .ok [("id", JValue.str "post1")]

theorem claim_c3_witness :
    ∃ rest,
      (post_image carouselOkEnv (.list ["u1", "u2"]) (some "cap") sampleDate).2 =
        [Request.carouselItem "u1", Request.carouselItem "u2"] ++
          (Request.carouselContainer "item1,item2" "cap") :: rest ∧
      ∀ r ∈ rest, ∃ cid, r = Request.publish cid :=
  claim_c3 carouselOkEnv ["u1", "u2"] ["item1", "item2"] (some "cap") sampleDate
    (by decide) ⟨⟨_, rfl, rfl⟩, ⟨_, rfl, rfl⟩, trivial⟩

/-- Claim C4: in the carousel flow, when the response to the item at 0-based
position `pre.length` has no id (all earlier ones having ids), `post_image`
returns the failure record naming 1-based item `pre.length + 1`, and the
whole request trace is the items up to and including the failing one: no
later item, no carousel-container and no publish request is issued. -/
theorem claim_c4 (env : Env) (pre suf : List String) (u : String)
    (ids : List String) (cap : Option String) (now : PyDate)
    (body : List (String × JValue))
    (hN : 1 < (pre ++ u :: suf).length)
    (Hpre : EnvCreatesItems env 0 pre ids)
    (henv : env pre.length (.carouselItem u) = .ok body)
    (hid : List.lookup "id" body = none) :
    post_image env (.list (pre ++ u :: suf)) cap now =
      (.ok (.failure (itemFailMsg (pre.length + 1))),
       (pre ++ [u]).map Request.carouselItem) := by
  have hfail := createCarouselItems_fail env pre ids suf u 1 0 body Hpre
    (by simpa using henv) hid
  have harith : (1 : Nat) + pre.length = pre.length + 1 := Nat.add_comm 1 pre.length
  rw [harith] at hfail
  simp [post_image, hN, hfail]
  intro hle
  exfalso
  simp at hN
  omega

theorem claim_c4_witness :
    post_image (fun _ r =>
        match r with
        | .carouselItem "u1" => .ok [("id", JValue.str "item1")]
        | _ => .ok [("other", JValue.str "x")])
      (.list (["u1"] ++ "u2" :: ["u3"])) (some "cap") sampleDate =
      (.ok (.failure (itemFailMsg (List.length ["u1"] + 1))),
       (["u1"] ++ ["u2"]).map Request.carouselItem) :=
  claim_c4 _ ["u1"] ["u3"] "u2" ["item1"] (some "cap") sampleDate
    [("other", JValue.str "x")] (by decide) ⟨⟨_, rfl, rfl⟩, trivial⟩ rfl rfl

/-- Claim C7: when the final container-creation response (single media, or
carousel container after successful items) has no id, `post_image` returns
the descriptive failure record and issues no publish request. -/
theorem claim_c7 :
    (∀ (env : Env) (url : String) (cap : Option String) (now : PyDate)
       (container : List (String × JValue)),
      env 0 (.singleMedia url (resolveCaption cap now)) = .ok container →
      List.lookup "id" container = none →
      post_image env (.str url) cap now =
        (.ok (.failure containerFailMsg),
         [.singleMedia url (resolveCaption cap now)])) ∧
    (∀ (env : Env) (urls ids : List String) (cap : Option String) (now : PyDate)
       (container : List (String × JValue)),
      1 < urls.length → EnvCreatesItems env 0 urls ids →
      env urls.length (.carouselContainer (String.intercalate "," ids)
        (resolveCaption cap now)) = .ok container →
      List.lookup "id" container = none →
      post_image env (.list urls) cap now =
        (.ok (.failure containerFailMsg),
         urls.map Request.carouselItem ++
           [.carouselContainer (String.intercalate "," ids)
             (resolveCaption cap now)])) := by
  constructor
  · intro env url cap now container h1 h2
    rw [post_image_single_eq, h1]
    simp [afterContainer, h2]
  · intro env urls ids cap now container hN H hC hid
    rw [post_image_carousel_ok_eq env urls ids cap now hN H, hC]
    simp [afterContainer, hid]

/-- A transport whose carousel-item responses carry ids but whose other
responses carry none. -/
def containerNoIdEnv : Env := fun _ r =>
  match r with
  | .carouselItem _ => .ok [("id", JValue.str "i1")]
  | _ => .ok [("status", JValue.other)]

theorem claim_c7_witness :
    post_image (fun _ _ => .ok [("status", JValue.other)]) (.str "u")
        (some "c") sampleDate =
      (.ok (.failure containerFailMsg), [.singleMedia "u" "c"]) ∧
    post_image containerNoIdEnv (.list ["u1", "u2"]) (some "c") sampleDate =
      (.ok (.failure containerFailMsg),
       [Request.carouselItem "u1", Request.carouselItem "u2"] ++
         [.carouselContainer "i1,i1" "c"]) :=
  ⟨claim_c7.1 (fun _ _ => .ok [("status", JValue.other)]) "u" (some "c")
      sampleDate [("status", JValue.other)] rfl rfl,
   claim_c7.2 containerNoIdEnv ["u1", "u2"] ["i1", "i1"] (some "c") sampleDate
      [("status", JValue.other)] (by decide)
      ⟨⟨_, rfl, rfl⟩, ⟨_, rfl, rfl⟩, trivial⟩ rfl rfl⟩

/-- Claim C8: when the publish response has no id, `post_image` returns the
failure record even though every container-creation call before it
succeeded, in both the single-media and the carousel flow. -/
theorem claim_c8 :
    (∀ (env : Env) (url : String) (cap : Option String) (now : PyDate)
       (container pub : List (String × JValue)) (cid : JValue),
      env 0 (.singleMedia url (resolveCaption cap now)) = .ok container →
      List.lookup "id" container = some cid →
      env 1 (.publish cid) = .ok pub →
      List.lookup "id" pub = none →
      post_image env (.str url) cap now =
        (.ok (.failure publishFailMsg),
         [.singleMedia url (resolveCaption cap now), .publish cid])) ∧
    (∀ (env : Env) (urls ids : List String) (cap : Option String) (now : PyDate)
       (container pub : List (String × JValue)) (cid : JValue),
      1 < urls.length → EnvCreatesItems env 0 urls ids →
      env urls.length (.carouselContainer (String.intercalate "," ids)
        (resolveCaption cap now)) = .ok container →
      List.lookup "id" container = some cid →
      env (urls.length + 1) (.publish cid) = .ok pub →
      List.lookup "id" pub = none →
      post_image env (.list urls) cap now =
        (.ok (.failure publishFailMsg),
         urls.map Request.carouselItem ++
           [.carouselContainer (String.intercalate "," ids)
             (resolveCaption cap now), .publish cid])) := by
  constructor
  · intro env url cap now container pub cid h1 h2 h3 h4
    rw [post_image_single_eq, h1]
    simp [afterContainer, h2, h3, h4]
  · intro env urls ids cap now container pub cid hN H hC hcid hpub hno
    rw [post_image_carousel_ok_eq env urls ids cap now hN H, hC]
    simp [afterContainer, hcid, hpub, hno]

/-- A transport whose publish responses carry no id while every
container-creation response does. -/
def publishNoIdEnv : Env := fun _ r =>
  match r with
  | .publish _ => .ok [("status", JValue.other)]
  | _ => .ok [("id", JValue.str "i1")]

theorem claim_c8_witness :
    post_image publishNoIdEnv (.str "u") (some "c") sampleDate =
      (.ok (.failure publishFailMsg),
       [.singleMedia "u" "c", .publish (JValue.str "i1")]) ∧
    post_image publishNoIdEnv (.list ["u1", "u2"]) (some "c") sampleDate =
      (.ok (.failure publishFailMsg),
       [Request.carouselItem "u1", Request.carouselItem "u2"] ++
         [.carouselContainer "i1,i1" "c", .publish (JValue.str "i1")]) :=
  ⟨claim_c8.1 publishNoIdEnv "u" (some "c") sampleDate
      [("id", JValue.str "i1")] [("status", JValue.other)] (JValue.str "i1")
      rfl rfl rfl rfl,
   claim_c8.2 publishNoIdEnv ["u1", "u2"] ["i1", "i1"] (some "c") sampleDate
      [("id", JValue.str "i1")] [("status", JValue.other)] (JValue.str "i1")
      (by decide) ⟨⟨_, rfl, rfl⟩, ⟨_, rfl, rfl⟩, trivial⟩ rfl rfl rfl rfl⟩
